import Mathlib

/-!
Shallow embedding of the query cache of `packages/good-boy/src/use-query.tsx`
(`createQueryCache`, lines 349-478), together with theorems settling the
claims about its behaviour.

Modelling choices, all read off the source:
* The table `queryCache` is a partial map from string keys to cache items;
  we embed it as `String → Option CacheItem`.
* The server-side table `$RSC` is created empty (`Object.create(null)`) and
  no code path ever adds a key to it ("TODO: Server cache"), so `has` and
  `get` are embedded with `$RSC = ∅`: the hydration branch of `get` is dead.
* Payloads (`value`, `error`) are opaque `any` values; we embed them as `Nat`.
  Promises are identified by an opaque id (`Nat`); the `.then` success and
  rejection callbacks registered by `set` become the separate transition
  functions `resolveCb` / `rejectCb`, which read the table live at settlement
  time, exactly as the source closures do.
* JavaScript property absence (`delete o.p`, `p?: T`) is `Option.none`;
  `invalid?: boolean` is only ever tested for truthiness, so it is a `Bool`
  with `false` standing for the absent property.
* Spreading `undefined` (`{ ...queryCache[key]! }` when the entry was
  evicted) yields an object with every source property absent; hence
  `subscribers` and `cacheTime` are `Option`-valued in the embedding even
  though the TypeScript interface declares them required: the settlement
  callbacks can and do create objects lacking them.
* `cacheTime` is a JS number that may be `Infinity` (and `Math.max` against
  an absent property yields `NaN`), embedded as `JsNum`.
* A thrown JS exception (`TypeError` from a property access on `undefined`,
  or the explicit `throw error` of the rejection handler) is recorded in the
  `JsOutcome` component of a transition's result; the table component is the
  state at the moment of the throw, since all mutations precede the throwing
  statement in each transition.
* `subscriber.forEach(s => s())` is embedded as emitting the list of
  subscriber ids (insertion order); listeners are opaque and not re-entrant.
* `Date.now()` and the timer handle returned by `setTimeout` are passed in
  as explicit `now` / `tid` parameters.
-/

namespace GoodBoy

/-- A JavaScript number as used for `cacheTime`: a natural number of
milliseconds, `Infinity`, or `NaN` (the latter arises from
`Math.max(undefined, _)`). -/
inductive JsNum where
  | fin (n : Nat)
  | inf
  | nan
deriving DecidableEq, Repr

/-- `Math.max` on two `JsNum`s: `NaN` is absorbing, otherwise `Infinity`
dominates, otherwise the numeric maximum. -/
def jsMax : JsNum → JsNum → JsNum
  | .nan, _ => .nan
  | _, .nan => .nan
  | .inf, _ => .inf
  | _, .inf => .inf
  | .fin a, .fin b => .fin (Nat.max a b)

/-- `DEFAULT_QUERY_OPTIONS.cacheTime = 5 * 60 * 1000` (use-query.tsx:127). -/
def DEFAULT_cacheTime : JsNum := .fin 300000

/-- The `CacheItem` interface (use-query.tsx:322-332). Optional fields are
`Option`; `subscribers` and `cacheTime` are `Option` because the settlement
callbacks can create objects lacking them (spread of `undefined`). -/
structure CacheItem where
  value : Option Nat := none
  error : Option Nat := none
  promise : Option Nat := none
  date : Option Nat := none
  subscribers : Option (List Nat) := none
  hydrated : Bool := false
  cacheTime : Option JsNum := none
  evictionTimeout : Option Nat := none
  invalid : Bool := false
deriving DecidableEq, Repr

/-- The `queryCache` table (use-query.tsx:350). -/
abbrev Table := String → Option CacheItem

/-- The freshly created cache: `Object.create(null)`. -/
def emptyT : Table := fun _ => none

/-- Assignment `queryCache[key] = it`. -/
def updT (t : Table) (k : String) (it : CacheItem) : Table :=
  fun k2 => if k2 = k then some it else t k2

/-- `delete queryCache[key]`. -/
def eraseT (t : Table) (k : String) : Table :=
  fun k2 => if k2 = k then none else t k2

/-- `Set.prototype.add`: append unless already present (insertion order). -/
def setAdd (l : List Nat) (x : Nat) : List Nat :=
  if l.contains x then l else l ++ [x]

/-- `Set.prototype.delete`. -/
def setDelete (l : List Nat) (x : Nat) : List Nat :=
  l.filter (fun y => y != x)

/-- How a transition of the embedded cache finished: normally, with a
`TypeError` (property access on `undefined`), or with an explicitly thrown
value (`throw error` in the rejection handler). -/
inductive JsOutcome where
  | ok
  | typeError
  | thrown (e : Nat)
deriving DecidableEq, Repr

/-- The second argument of `set`: an immediate value or a `Promise`
(identified by an opaque id). -/
inductive SetArg where
  | val (v : Nat)
  | prom (pid : Nat)
deriving DecidableEq, Repr

/-- The object literal of `queryCache[key] ||= {...}` inside `set`
(use-query.tsx:381-386 and 414-419). -/
def freshItem (now : Nat) (ct : JsNum) : CacheItem :=
  { date := some now, hydrated := false, subscribers := some [],
    cacheTime := some ct }

/-- The cache item stored by the synchronous part of `set`
(use-query.tsx:380-393 for a promise argument, 413-428 for an immediate
value): create the entry if absent, then spread-update it.  The promise
branch installs the promise and maxes `cacheTime`, then deletes `invalid`;
the value branch installs the value and the current date, then deletes
`invalid` and `promise`.  Neither branch touches `error`. -/
def setItem (t : Table) (key : String) (arg : SetArg) (cacheTime : JsNum)
    (now : Nat) : CacheItem :=
  match arg with
  | .prom pid =>
      let base :=
        match t key with
        | some it => it
        | none => freshItem now cacheTime
      { base with
          promise := some pid
          cacheTime := some (jsMax (base.cacheTime.getD .nan) cacheTime)
          invalid := false }
  | .val v =>
      let base :=
        match t key with
        | some it => it
        | none => freshItem now cacheTime
      { base with
          value := some v
          hydrated := false
          date := some now
          invalid := false
          promise := none }

/-- `set(key, valueOrPromise, cacheTime)` (use-query.tsx:375-432), the
synchronous part.  After the mutation, `queryCache[key]!.subscribers
.forEach(s => s())` fans out to the stored subscriber list; if that list is
an absent property the `forEach` access throws a `TypeError`. -/
def set (t : Table) (key : String) (arg : SetArg) (cacheTime : JsNum)
    (now : Nat) : Table × List Nat × JsOutcome :=
  let it2 := setItem t key arg cacheTime now
  let t2 := updT t key it2
  match it2.subscribers with
  | some subs => (t2, subs, .ok)
  | none => (t2, [], .typeError)

/-- `has(key)` (use-query.tsx:355-357): `key in queryCache || key in $RSC`,
with `$RSC` always empty. -/
def has (t : Table) (key : String) : Bool :=
  (t key).isSome

/-- `get(key)` (use-query.tsx:359-373): the `$RSC` hydration branch is dead
(`$RSC` is always empty), so `get` is a pure read. -/
def get (t : Table) (key : String) : Option CacheItem :=
  t key

/-- The success callback `(value) => {...}` registered by `set` on the
promise (use-query.tsx:396-406), run at resolution time against the live
table: spread-update the current entry (spreading `undefined` if it was
evicted, which creates an object lacking `subscribers` and `cacheTime`),
store the value and date, delete `promise`, then fan out — a `TypeError`
if `subscribers` is absent. -/
def resolveItem (t : Table) (key : String) (v : Nat) (now : Nat) : CacheItem :=
  let base :=
    match t key with
    | some it => it
    | none => ({} : CacheItem)
  { base with
      value := some v
      hydrated := false
      date := some now
      promise := none }

/-- The fan-out step of the success callback: store the updated item, then
`queryCache[key]!.subscribers.forEach(s => s())` — a `TypeError` if
`subscribers` is an absent property. -/
def resolveCb (t : Table) (key : String) (v : Nat) (now : Nat) :
    Table × List Nat × JsOutcome :=
  let it2 := resolveItem t key v now
  let t2 := updT t key it2
  match it2.subscribers with
  | some subs => (t2, subs, .ok)
  | none => (t2, [], .typeError)

/-- The rejection callback `(error) => {...}` registered by `set` on the
promise (use-query.tsx:407-411): `delete queryCache[key]!.promise` (a
`TypeError` if the entry was evicted), set `error`, then `throw error`.
It notifies no subscribers. -/
def rejectCb (t : Table) (key : String) (e : Nat) :
    Table × List Nat × JsOutcome :=
  match t key with
  | none => (t, [], .typeError)
  | some it =>
      (updT t key { it with promise := none, error := some e }, [], .thrown e)

/-- `subscribe(key, fn)` (use-query.tsx:434-445), the registration part:
create the entry if absent (with the default cache time), add the listener
(a `TypeError` if `subscribers` is an absent property), and clear any armed
eviction timer. -/
def subscribe (t : Table) (key : String) (f : Nat) (now : Nat) :
    Table × JsOutcome :=
  let t1 :=
    match t key with
    | some _ => t
    | none =>
        updT t key
          { subscribers := some [], date := some now, hydrated := false,
            cacheTime := some DEFAULT_cacheTime }
  match t1 key with
  | none => (t1, .typeError)
  | some it =>
      match it.subscribers with
      | none => (t1, .typeError)
      | some subs =>
          let it2 := { it with subscribers := some (setAdd subs f) }
          let it3 :=
            match it2.evictionTimeout with
            | some _ => { it2 with evictionTimeout := none }
            | none => it2
          (updT t1 key it3, .ok)

/-- The unsubscribe closure returned by `subscribe` (use-query.tsx:447-461):
a no-op if the entry is gone; otherwise remove the listener (a `TypeError`
if `subscribers` is absent) and, when the subscriber set becomes empty,
delete `error` and then per `cacheTime`: `=== 0` deletes the entry at once,
a finite nonzero value arms the eviction timer `tid`, and anything else
(`Infinity`, `NaN`, or an absent property) arms nothing. -/
def unsub (t : Table) (key : String) (f : Nat) (tid : Nat) :
    Table × List Nat × JsOutcome :=
  match t key with
  | none => (t, [], .ok)
  | some it =>
      match it.subscribers with
      | none => (t, [], .typeError)
      | some subs =>
          let subs2 := setDelete subs f
          let it2 := { it with subscribers := some subs2 }
          if subs2.isEmpty then
            let it3 := { it2 with error := none }
            match it3.cacheTime with
            | some (.fin 0) => (eraseT t key, [], .ok)
            | some (.fin (_ + 1)) =>
                (updT t key { it3 with evictionTimeout := some tid }, [], .ok)
            | _ => (updT t key it3, [], .ok)
          else
            (updT t key it2, [], .ok)

/-- The eviction timer callback `() => { delete queryCache[key]; }`
(use-query.tsx:456-458). -/
def timerFire (t : Table) (key : String) : Table :=
  eraseT t key

/-- `invalidate(key)` (use-query.tsx:468-476): spread-update with
`invalid: true` and fan out; a no-op on an absent key. -/
def invalidate (t : Table) (key : String) : Table × List Nat × JsOutcome :=
  match t key with
  | none => (t, [], .ok)
  | some it =>
      let it2 := { it with invalid := true }
      let t2 := updT t key it2
      match it2.subscribers with
      | some subs => (t2, subs, .ok)
      | none => (t2, [], .typeError)

/-- The `promise` field of the entry for `k`, if any. -/
def promiseOf (t : Table) (k : String) : Option Nat :=
  (get t k).bind CacheItem.promise

/-- The `error` field of the entry for `k`, if any. -/
def errorOf (t : Table) (k : String) : Option Nat :=
  (get t k).bind CacheItem.error

/-- The `value` field of the entry for `k`, if any. -/
def valueOf (t : Table) (k : String) : Option Nat :=
  (get t k).bind CacheItem.value

/-- The `date` field of the entry for `k`, if any. -/
def dateOf (t : Table) (k : String) : Option Nat :=
  (get t k).bind CacheItem.date

/-- The `cacheTime` field of the entry for `k`, if any. -/
def cacheTimeOf (t : Table) (k : String) : Option JsNum :=
  (get t k).bind CacheItem.cacheTime

/-- The `evictionTimeout` field of the entry for `k`, if any. -/
def timeoutOf (t : Table) (k : String) : Option Nat :=
  (get t k).bind CacheItem.evictionTimeout

/-- The `subscribers` field of the entry for `k`, if any. -/
def subscribersOf (t : Table) (k : String) : Option (List Nat) :=
  (get t k).bind CacheItem.subscribers

/-- Truthiness of the `invalid` field of the entry for `k` (absent entry or
absent field both read as `false`). -/
def invalidOf (t : Table) (k : String) : Bool :=
  match get t k with
  | some it => it.invalid
  | none => false

/-- One event of the embedded cache: a public mutating call, a settlement
callback running, or an armed eviction timer firing. -/
inductive Op where
  | opSet (key : String) (arg : SetArg) (ct : JsNum) (now : Nat)
  | opInvalidate (key : String)
  | opSubscribe (key : String) (f : Nat) (now : Nat)
  | opUnsub (key : String) (f : Nat) (tid : Nat)
  | opTimerFire (key : String)
  | opResolve (key : String) (v : Nat) (now : Nat)
  | opReject (key : String) (e : Nat)
deriving DecidableEq, Repr

/-- The table after one event. -/
def applyOp (t : Table) : Op → Table
  | .opSet k a c n => (set t k a c n).1
  | .opInvalidate k => (invalidate t k).1
  | .opSubscribe k f n => (subscribe t k f n).1
  | .opUnsub k f tid => (unsub t k f tid).1
  | .opTimerFire k => timerFire t k
  | .opResolve k v n => (resolveCb t k v n).1
  | .opReject k e => (rejectCb t k e).1

/-- Whether an event is a further `set` for `K` or the running of a
settlement callback for `K` — the events claim C1 excludes between the
recording `set` and the read. -/
def touchesK (K : String) : Op → Bool
  | .opSet k _ _ _ => k == K
  | .opResolve k _ _ => k == K
  | .opReject k _ => k == K
  | _ => false

/-- The key-by-key invariant behind fetch deduplication: the entry for `K`,
when present, carries no promise other than `pid`. -/
def promInv (K : String) (pid : Nat) (t : Table) : Prop :=
  promiseOf t K = some pid ∨ promiseOf t K = none

/-! ### Helper lemmas about the table primitives -/

theorem updT_self (t : Table) (k : String) (it : CacheItem) :
    updT t k it k = some it := by
  simp [updT]

theorem updT_ne (t : Table) (k k2 : String) (it : CacheItem) (h : k2 ≠ k) :
    updT t k it k2 = t k2 := by
  simp [updT, h]

theorem eraseT_self (t : Table) (k : String) : eraseT t k k = none := by
  simp [eraseT]

theorem eraseT_ne (t : Table) (k k2 : String) (h : k2 ≠ k) :
    eraseT t k k2 = t k2 := by
  simp [eraseT, h]

/-! ### Structural lemmas about the operations -/

theorem set_fst (t : Table) (k : String) (a : SetArg) (c : JsNum) (n : Nat) :
    (set t k a c n).1 = updT t k (setItem t k a c n) := by
  cases h : (setItem t k a c n).subscribers <;> simp [set, h]

theorem resolveCb_fst (t : Table) (k : String) (v n : Nat) :
    (resolveCb t k v n).1 = updT t k (resolveItem t k v n) := by
  cases h : (resolveItem t k v n).subscribers <;> simp [resolveCb, h]

theorem setItem_error (t : Table) (k : String) (a : SetArg) (c : JsNum)
    (n : Nat) : (setItem t k a c n).error = (t k).bind CacheItem.error := by
  unfold setItem
  cases a <;> cases htk : t k <;> simp [htk, freshItem]

theorem setItem_promise_prom (t : Table) (k : String) (pid : Nat) (c : JsNum)
    (n : Nat) : (setItem t k (.prom pid) c n).promise = some pid := by
  unfold setItem
  cases htk : t k <;> simp [htk]

theorem errorOf_set (t : Table) (k : String) (a : SetArg) (c : JsNum)
    (n : Nat) : errorOf (set t k a c n).1 k = errorOf t k := by
  unfold errorOf get
  rw [set_fst, updT_self, Option.some_bind, setItem_error]

theorem promiseOf_set_prom (t : Table) (k : String) (pid : Nat) (c : JsNum)
    (n : Nat) : promiseOf (set t k (.prom pid) c n).1 k = some pid := by
  unfold promiseOf get
  rw [set_fst, updT_self, Option.some_bind, setItem_promise_prom]

theorem invalidate_fst (t : Table) (k : String) :
    (invalidate t k).1 =
      match t k with
      | none => t
      | some it => updT t k { it with invalid := true } := by
  cases htk : t k with
  | none => simp [invalidate, htk]
  | some it => cases hs : it.subscribers <;> simp [invalidate, htk, hs]

theorem invalidate_promiseOf (t : Table) (k K : String) :
    promiseOf (invalidate t k).1 K = promiseOf t K := by
  rw [invalidate_fst]
  cases htk : t k with
  | none => rfl
  | some it =>
      by_cases hK : K = k
      · subst hK
        simp [promiseOf, get, updT_self, htk]
      · simp [promiseOf, get, updT_ne _ _ _ _ hK]

theorem subscribe_promiseOf (t : Table) (k : String) (f n : Nat) (K : String) :
    promiseOf (subscribe t k f n).1 K = promiseOf t K := by
  unfold subscribe
  cases htk : t k with
  | none =>
      by_cases hK : K = k
      · subst hK
        simp [promiseOf, get, updT, htk, setAdd]
      · simp [promiseOf, get, updT, htk, hK, setAdd]
  | some it =>
      cases hs : it.subscribers with
      | none => simp [htk, hs]
      | some subs =>
          by_cases hK : K = k
          · subst hK
            cases hev : it.evictionTimeout <;>
              simp [promiseOf, get, updT, htk, hs, hev]
          · cases hev : it.evictionTimeout <;>
              simp [promiseOf, get, updT, htk, hs, hev, hK]

theorem unsub_promiseOf (t : Table) (k : String) (f tid : Nat) (K : String) :
    promiseOf (unsub t k f tid).1 K = promiseOf t K ∨
    promiseOf (unsub t k f tid).1 K = none := by
  unfold unsub
  cases htk : t k with
  | none => exact Or.inl rfl
  | some it =>
      cases hs : it.subscribers with
      | none => exact Or.inl (by simp [hs])
      | some subs =>
          by_cases he : (setDelete subs f).isEmpty
          · cases hct : it.cacheTime with
            | none =>
                refine Or.inl ?_
                by_cases hK : K = k
                · subst hK
                  simp [htk, hs, he, hct, promiseOf, get, updT]
                · simp [htk, hs, he, hct, promiseOf, get, updT, hK]
            | some c =>
                cases c with
                | fin m =>
                    cases m with
                    | zero =>
                        by_cases hK : K = k
                        · subst hK
                          exact Or.inr (by
                            simp [htk, hs, he, hct, promiseOf, get, eraseT])
                        · exact Or.inl (by
                            simp [htk, hs, he, hct, promiseOf, get, eraseT, hK])
                    | succ m2 =>
                        refine Or.inl ?_
                        by_cases hK : K = k
                        · subst hK
                          simp [htk, hs, he, hct, promiseOf, get, updT]
                        · simp [htk, hs, he, hct, promiseOf, get, updT, hK]
                | inf =>
                    refine Or.inl ?_
                    by_cases hK : K = k
                    · subst hK
                      simp [htk, hs, he, hct, promiseOf, get, updT]
                    · simp [htk, hs, he, hct, promiseOf, get, updT, hK]
                | nan =>
                    refine Or.inl ?_
                    by_cases hK : K = k
                    · subst hK
                      simp [htk, hs, he, hct, promiseOf, get, updT]
                    · simp [htk, hs, he, hct, promiseOf, get, updT, hK]
          · refine Or.inl ?_
            by_cases hK : K = k
            · subst hK
              simp [htk, hs, he, promiseOf, get, updT]
            · simp [htk, hs, he, promiseOf, get, updT, hK]

theorem set_apply_ne (t : Table) (k : String) (a : SetArg) (c : JsNum)
    (n : Nat) (K : String) (h : K ≠ k) : (set t k a c n).1 K = t K := by
  rw [set_fst]
  exact updT_ne _ _ _ _ h

theorem resolveCb_apply_ne (t : Table) (k : String) (v n : Nat) (K : String)
    (h : K ≠ k) : (resolveCb t k v n).1 K = t K := by
  rw [resolveCb_fst]
  exact updT_ne _ _ _ _ h

theorem rejectCb_apply_ne (t : Table) (k : String) (e : Nat) (K : String)
    (h : K ≠ k) : (rejectCb t k e).1 K = t K := by
  unfold rejectCb
  cases htk : t k with
  | none => rfl
  | some it => simp [updT_ne _ _ _ _ h]

theorem timerFire_promiseOf (t : Table) (k K : String) :
    promiseOf (timerFire t k) K = promiseOf t K ∨
    promiseOf (timerFire t k) K = none := by
  by_cases hK : K = k
  · subst hK
    exact Or.inr (by simp [timerFire, promiseOf, get, eraseT_self])
  · exact Or.inl (by simp [timerFire, promiseOf, get, eraseT_ne _ _ _ hK])

/-- Every event other than a `set` for `K` or a settlement callback for `K`
preserves the dedup invariant: `K`'s entry, when present, still carries no
promise other than `pid`. -/
theorem promInv_step (K : String) (pid : Nat) (t : Table) (op : Op)
    (hop : touchesK K op = false) (h : promInv K pid t) :
    promInv K pid (applyOp t op) := by
  cases op with
  | opSet k a c n =>
      have hk : K ≠ k := by
        intro he
        subst he
        simp [touchesK] at hop
      have heq : promiseOf (applyOp t (.opSet k a c n)) K = promiseOf t K := by
        unfold promiseOf get
        rw [show applyOp t (.opSet k a c n) K = t K from
          set_apply_ne t k a c n K hk]
      unfold promInv at h ⊢
      rw [heq]
      exact h
  | opInvalidate k =>
      have heq : promiseOf (applyOp t (.opInvalidate k)) K = promiseOf t K :=
        invalidate_promiseOf t k K
      unfold promInv at h ⊢
      rw [heq]
      exact h
  | opSubscribe k f n =>
      have heq : promiseOf (applyOp t (.opSubscribe k f n)) K = promiseOf t K :=
        subscribe_promiseOf t k f n K
      unfold promInv at h ⊢
      rw [heq]
      exact h
  | opUnsub k f tid =>
      have heq : promiseOf (applyOp t (.opUnsub k f tid)) K = promiseOf t K ∨
          promiseOf (applyOp t (.opUnsub k f tid)) K = none :=
        unsub_promiseOf t k f tid K
      unfold promInv at h ⊢
      rcases heq with h1 | h1
      · rw [h1]
        exact h
      · rw [h1]
        exact Or.inr rfl
  | opTimerFire k =>
      have heq : promiseOf (applyOp t (.opTimerFire k)) K = promiseOf t K ∨
          promiseOf (applyOp t (.opTimerFire k)) K = none :=
        timerFire_promiseOf t k K
      unfold promInv at h ⊢
      rcases heq with h1 | h1
      · rw [h1]
        exact h
      · rw [h1]
        exact Or.inr rfl
  | opResolve k v n =>
      have hk : K ≠ k := by
        intro he
        subst he
        simp [touchesK] at hop
      have heq : promiseOf (applyOp t (.opResolve k v n)) K = promiseOf t K := by
        unfold promiseOf get
        rw [show applyOp t (.opResolve k v n) K = t K from
          resolveCb_apply_ne t k v n K hk]
      unfold promInv at h ⊢
      rw [heq]
      exact h
  | opReject k e =>
      have hk : K ≠ k := by
        intro he
        subst he
        simp [touchesK] at hop
      have heq : promiseOf (applyOp t (.opReject k e)) K = promiseOf t K := by
        unfold promiseOf get
        rw [show applyOp t (.opReject k e) K = t K from
          rejectCb_apply_ne t k e K hk]
      unfold promInv at h ⊢
      rw [heq]
      exact h

/-- The dedup invariant is preserved by any event sequence that contains no
further `set` for `K` and no settlement callback for `K`. -/
theorem promInv_fold (K : String) (pid : Nat) (ops : List Op) (t : Table)
    (hops : ∀ op ∈ ops, touchesK K op = false) (h : promInv K pid t) :
    promInv K pid (ops.foldl applyOp t) := by
  induction ops generalizing t with
  | nil => exact h
  | cons op rest ih =>
      simp only [List.foldl_cons]
      exact ih (applyOp t op)
        (fun o ho => hops o (List.mem_cons_of_mem _ ho))
        (promInv_step K pid t op (hops op (List.mem_cons_self _ _)) h)

/-! ### Claim C1 (fetch deduplication) -/

/-- C1, counterexample to the claim as stated: `set("k", futureA, 0)` records
future `1` (so `get("k").promise = futureA` right after), `futureA` never
settles and no other `set("k", ...)` is called, yet after a subscribe and an
unsubscribe (the entry's retention window is `0`, so the unsubscribe evicts
the entry) a read of `get("k")` returns no entry at all — not an entry whose
`promise` field is `futureA`. -/
theorem c1_counterexample :
    promiseOf (set emptyT "k" (SetArg.prom 1) (JsNum.fin 0) 0).1 "k" =
      some 1 ∧
    get (unsub (subscribe (set emptyT "k" (SetArg.prom 1) (JsNum.fin 0) 0).1
      "k" 7 1).1 "k" 7 99).1 "k" = none := by
  decide

/-- C1 amended: after `set(K, futureA, ct)` records future `pid`, any event
sequence containing no further `set(K, ...)` and no settlement callback for
`K` leads to a state where `K`'s `promise` field is still exactly `pid`, or
where the promise field (or the whole entry) is absent — never a second,
different future.  No operation of the cache itself ever installs a future
the caller did not pass to `set`. -/
theorem c1_amended (K : String) (pid : Nat) (ct : JsNum) (now : Nat)
    (t0 : Table) (ops : List Op)
    (hops : ∀ op ∈ ops, touchesK K op = false) :
    promiseOf (ops.foldl applyOp (set t0 K (SetArg.prom pid) ct now).1) K =
      some pid ∨
    promiseOf (ops.foldl applyOp (set t0 K (SetArg.prom pid) ct now).1) K =
      none :=
  promInv_fold K pid ops _ hops (Or.inl (promiseOf_set_prom t0 K pid ct now))

/-- C1 amended, witness: a concrete run — record future `1` for `"k"`, then
invalidate, subscribe a listener, and run a set and a rejection for the
other key `"x"`; the promise field of `"k"` is still future `1`. -/
theorem c1_amended_witness :
    promiseOf ([Op.opInvalidate "k", Op.opSubscribe "k" 3 1,
      Op.opSet "x" (SetArg.val 5) (JsNum.fin 10) 2,
      Op.opReject "x" 4].foldl applyOp
        (set emptyT "k" (SetArg.prom 1) (JsNum.fin 5) 0).1) "k" = some 1 ∨
    promiseOf ([Op.opInvalidate "k", Op.opSubscribe "k" 3 1,
      Op.opSet "x" (SetArg.val 5) (JsNum.fin 10) 2,
      Op.opReject "x" 4].foldl applyOp
        (set emptyT "k" (SetArg.prom 1) (JsNum.fin 5) 0).1) "k" = none :=
  c1_amended "k" 1 (JsNum.fin 5) 0 emptyT
    [Op.opInvalidate "k", Op.opSubscribe "k" 3 1,
      Op.opSet "x" (SetArg.val 5) (JsNum.fin 10) 2, Op.opReject "x" 4]
    (by decide)

/-! ### Claim C2 (invariant I1: pending and error never both present) -/

/-- C2, counterexample: from the empty cache, `set("k", future1)`, rejection
of future `1` with error `9`, then `set("k", future2)` reaches a state whose
entry for `"k"` has both `promise = future2` and `error = 9`: `set` with a
new future does not clear a stale error, so I1 fails on a reachable state. -/
theorem c2_counterexample :
    promiseOf (set (rejectCb (set emptyT "k" (SetArg.prom 1) (JsNum.fin 5)
      0).1 "k" 9).1 "k" (SetArg.prom 2) (JsNum.fin 5) 3).1 "k" = some 2 ∧
    errorOf (set (rejectCb (set emptyT "k" (SetArg.prom 1) (JsNum.fin 5)
      0).1 "k" 9).1 "k" (SetArg.prom 2) (JsNum.fin 5) 3).1 "k" = some 9 := by
  decide

/-- C2 amended: a `set` call — with a future or with an immediate value —
never modifies the `error` field of the key it writes: starting a new fetch
does not clear a stale error, so `pending` and `error` can be simultaneously
present (`error` is cleared only when the last subscriber detaches). -/
theorem c2_amended (t : Table) (K : String) (arg : SetArg) (ct : JsNum)
    (now : Nat) : errorOf (set t K arg ct now).1 K = errorOf t K :=
  errorOf_set t K arg ct now

/-! ### Claim C3 (error non-destructive, cleared on success) -/

/-- C3, counterexample: value `5` is cached for `"k"`, a fetch future `1` is
recorded and rejects with error `9`, then a successful `set("k", 7)` follows
— and the entry still carries `error = 9` alongside the new value `7`: a
following successful `set` does not clear the error field. -/
theorem c3_counterexample :
    errorOf (set (rejectCb (set (set emptyT "k" (SetArg.val 5) (JsNum.fin 5)
      0).1 "k" (SetArg.prom 1) (JsNum.fin 5) 1).1 "k" 9).1 "k"
      (SetArg.val 7) (JsNum.fin 5) 2).1 "k" = some 9 ∧
    valueOf (set (rejectCb (set (set emptyT "k" (SetArg.val 5) (JsNum.fin 5)
      0).1 "k" (SetArg.prom 1) (JsNum.fin 5) 1).1 "k" 9).1 "k"
      (SetArg.val 7) (JsNum.fin 5) 2).1 "k" = some 7 := by
  decide

/-- C3 amended: a failed fetch (the rejection callback) leaves any
previously resolved `value` intact while setting `error`; a following
successful `set` updates the value but leaves the `error` field unchanged —
the error is cleared only when the last subscriber detaches, never by a
`set`. -/
theorem c3_amended (t : Table) (K : String) (it : CacheItem) (e v : Nat)
    (ct : JsNum) (now : Nat) (h : get t K = some it) :
    valueOf (rejectCb t K e).1 K = valueOf t K ∧
    errorOf (rejectCb t K e).1 K = some e ∧
    errorOf (set (rejectCb t K e).1 K (SetArg.val v) ct now).1 K = some e := by
  have htk : t K = some it := h
  have h1 : (rejectCb t K e).1 =
      updT t K { it with promise := none, error := some e } := by
    simp [rejectCb, htk]
  refine ⟨?_, ?_, ?_⟩
  · unfold valueOf get
    rw [h1, updT_self, htk]
    rfl
  · unfold errorOf get
    rw [h1, updT_self]
    rfl
  · rw [errorOf_set]
    unfold errorOf get
    rw [h1, updT_self]
    rfl

/-- C3 amended, witness: run at the concrete trace of the counterexample
(value `5` cached, future `1` rejects with `9`, then `set("k", 7)`). -/
theorem c3_amended_witness :
    valueOf (rejectCb (set (set emptyT "k" (SetArg.val 5) (JsNum.fin 5) 0).1
        "k" (SetArg.prom 1) (JsNum.fin 5) 1).1 "k" 9).1 "k" =
      valueOf (set (set emptyT "k" (SetArg.val 5) (JsNum.fin 5) 0).1
        "k" (SetArg.prom 1) (JsNum.fin 5) 1).1 "k" ∧
    errorOf (rejectCb (set (set emptyT "k" (SetArg.val 5) (JsNum.fin 5) 0).1
        "k" (SetArg.prom 1) (JsNum.fin 5) 1).1 "k" 9).1 "k" = some 9 ∧
    errorOf (set (rejectCb (set (set emptyT "k" (SetArg.val 5)
        (JsNum.fin 5) 0).1 "k" (SetArg.prom 1) (JsNum.fin 5) 1).1 "k" 9).1
        "k" (SetArg.val 7) (JsNum.fin 5) 2).1 "k" = some 9 :=
  c3_amended (set (set emptyT "k" (SetArg.val 5) (JsNum.fin 5) 0).1 "k"
      (SetArg.prom 1) (JsNum.fin 5) 1).1 "k"
    { value := some 5, error := none, promise := some 1, date := some 0,
      subscribers := some [], hydrated := false,
      cacheTime := some (JsNum.fin 5), evictionTimeout := none,
      invalid := false }
    9 7 (JsNum.fin 5) 2 (by decide)

/-! ### Claim C4 (failure fan-out) -/

/-- C4, counterexample: listener `7` subscribes to `"k"`, future `1` is
recorded, and the future rejects with error `9` — the rejection handler
notifies nobody (the emitted notification list is empty, although the
subscriber set is `{7}`) and it raises: it re-throws the error. -/
theorem c4_counterexample :
    subscribersOf (set (subscribe emptyT "k" 7 0).1 "k" (SetArg.prom 1)
      (JsNum.fin 5) 1).1 "k" = some [7] ∧
    (rejectCb (set (subscribe emptyT "k" 7 0).1 "k" (SetArg.prom 1)
      (JsNum.fin 5) 1).1 "k" 9).2.1 = [] ∧
    (rejectCb (set (subscribe emptyT "k" 7 0).1 "k" (SetArg.prom 1)
      (JsNum.fin 5) 1).1 "k" 9).2.2 = JsOutcome.thrown 9 := by
  decide

/-- C4 amended: when a recorded future fails while the entry is present, the
rejection handler does set `error` and clear `pending`, but it notifies no
subscriber at all and does not complete normally: it re-throws the error. -/
theorem c4_amended (t : Table) (K : String) (e : Nat) (it : CacheItem)
    (h : get t K = some it) :
    (rejectCb t K e).2.1 = [] ∧
    (rejectCb t K e).2.2 = JsOutcome.thrown e ∧
    promiseOf (rejectCb t K e).1 K = none ∧
    errorOf (rejectCb t K e).1 K = some e := by
  have htk : t K = some it := h
  have h1 : rejectCb t K e =
      (updT t K { it with promise := none, error := some e }, [],
        JsOutcome.thrown e) := by
    simp [rejectCb, htk]
  refine ⟨by rw [h1], by rw [h1], ?_, ?_⟩
  · unfold promiseOf get
    rw [h1]
    simp [updT_self]
  · unfold errorOf get
    rw [h1]
    simp [updT_self]

/-- C4 amended, witness: the rejection of future `1` for `"k"` with error
`9`, with listener `7` subscribed. -/
theorem c4_amended_witness :
    (rejectCb (set (subscribe emptyT "k" 7 0).1 "k" (SetArg.prom 1)
        (JsNum.fin 5) 1).1 "k" 9).2.1 = [] ∧
    (rejectCb (set (subscribe emptyT "k" 7 0).1 "k" (SetArg.prom 1)
        (JsNum.fin 5) 1).1 "k" 9).2.2 = JsOutcome.thrown 9 ∧
    promiseOf (rejectCb (set (subscribe emptyT "k" 7 0).1 "k" (SetArg.prom 1)
        (JsNum.fin 5) 1).1 "k" 9).1 "k" = none ∧
    errorOf (rejectCb (set (subscribe emptyT "k" 7 0).1 "k" (SetArg.prom 1)
        (JsNum.fin 5) 1).1 "k" 9).1 "k" = some 9 :=
  c4_amended (set (subscribe emptyT "k" 7 0).1 "k" (SetArg.prom 1)
      (JsNum.fin 5) 1).1 "k" 9
    { value := none, error := none, promise := some 1, date := some 0,
      subscribers := some [7], hydrated := false,
      cacheTime := some (JsNum.fin 300000), evictionTimeout := none,
      invalid := false }
    (by decide)

/-! ### Claim C5 (retention-window maximum) -/

/-- C5, counterexample: the spec's own example — `set("k", v1, 1000)` then
`set("k", v2, 5000)`, both immediate values, zero subscribers — leaves the
effective retention window at `1000`, not `5000`: the immediate-value branch
of `set` ignores its `cacheTime` argument for an existing entry. -/
theorem c5_counterexample :
    cacheTimeOf (set (set emptyT "k" (SetArg.val 1) (JsNum.fin 1000) 0).1
      "k" (SetArg.val 2) (JsNum.fin 5000) 1).1 "k" = some (JsNum.fin 1000) ∧
    cacheTimeOf (set (set emptyT "k" (SetArg.val 1) (JsNum.fin 1000) 0).1
      "k" (SetArg.val 2) (JsNum.fin 5000) 1).1 "k" ≠
        some (JsNum.fin 5000) := by
  decide

/-- C5 amended: on an existing entry, a `set` with an immediate value leaves
the retention window unchanged (the `cacheTime` argument is ignored), while
only a `set` with a future maxes the stored window with the requested one —
so the effective window is the maximum over the creation-time window and the
future-carrying `set` calls, not over all `set` calls. -/
theorem c5_amended (t : Table) (K : String) (it : CacheItem) (v pid : Nat)
    (ct : JsNum) (now : Nat) (h : get t K = some it) :
    cacheTimeOf (set t K (SetArg.val v) ct now).1 K = it.cacheTime ∧
    cacheTimeOf (set t K (SetArg.prom pid) ct now).1 K =
      some (jsMax (it.cacheTime.getD JsNum.nan) ct) := by
  have htk : t K = some it := h
  constructor
  · unfold cacheTimeOf get
    rw [set_fst, updT_self, Option.some_bind]
    unfold setItem
    rw [htk]
  · unfold cacheTimeOf get
    rw [set_fst, updT_self, Option.some_bind]
    unfold setItem
    rw [htk]

/-- C5 amended, witness: applied to the entry created by
`set("k", v1, 1000)`; an immediate-value `set` with window `5000` keeps the
window at `1000`, and a future-carrying `set` with window `5000` maxes it
to `5000`. -/
theorem c5_amended_witness :
    cacheTimeOf (set (set emptyT "k" (SetArg.val 1) (JsNum.fin 1000) 0).1
      "k" (SetArg.val 2) (JsNum.fin 5000) 1).1 "k" =
        some (JsNum.fin 1000) ∧
    cacheTimeOf (set (set emptyT "k" (SetArg.val 1) (JsNum.fin 1000) 0).1
      "k" (SetArg.prom 3) (JsNum.fin 5000) 1).1 "k" =
        some (jsMax ((some (JsNum.fin 1000)).getD JsNum.nan)
          (JsNum.fin 5000)) :=
  c5_amended (set emptyT "k" (SetArg.val 1) (JsNum.fin 1000) 0).1 "k"
    { value := some 1, error := none, promise := none, date := some 0,
      subscribers := some [], hydrated := false,
      cacheTime := some (JsNum.fin 1000), evictionTimeout := none,
      invalid := false }
    2 3 (JsNum.fin 5000) 1 (by decide)

/-! ### Claim C6 (immediate eviction on retention window 0) -/

/-- C6, counterexample: `set("k", 42, 0)` with zero subscribers leaves the
entry in the table — `has("k")` is `true` on the very next call, not
`false`: `set` contains no eviction logic at all. -/
theorem c6_counterexample :
    has (set emptyT "k" (SetArg.val 42) (JsNum.fin 0) 0).1 "k" = true := by
  decide

/-- C6 amended: `set(K, v, 0)` always leaves an entry in the table, so
`has(K)` is `true` immediately afterwards; immediate (timer-less) eviction
for a zero retention window happens only when the last subscriber
unsubscribes. -/
theorem c6_amended :
    (∀ (t : Table) (K : String) (v now : Nat),
      has (set t K (SetArg.val v) (JsNum.fin 0) now).1 K = true) ∧
    (∀ (t : Table) (K : String) (f tid : Nat) (it : CacheItem),
      get t K = some it → it.subscribers = some [f] →
      it.cacheTime = some (JsNum.fin 0) →
      has (unsub t K f tid).1 K = false) := by
  constructor
  · intro t K v now
    unfold has
    rw [set_fst, updT_self]
    rfl
  · intro t K f tid it h hsubs hct
    have htk : t K = some it := h
    unfold has unsub
    simp [htk, hsubs, setDelete, hct, eraseT]

/-- C6 amended, witness: `set("k", 42, 0)` keeps the entry (`has = true`);
subscribing listener `3` and unsubscribing it then deletes the entry
(`has = false`) with no timer involved. -/
theorem c6_amended_witness :
    has (set emptyT "k" (SetArg.val 42) (JsNum.fin 0) 0).1 "k" = true ∧
    has (unsub (subscribe (set emptyT "k" (SetArg.val 42) (JsNum.fin 0)
      0).1 "k" 3 1).1 "k" 3 99).1 "k" = false :=
  ⟨c6_amended.1 emptyT "k" 42 0,
    c6_amended.2 (subscribe (set emptyT "k" (SetArg.val 42) (JsNum.fin 0)
        0).1 "k" 3 1).1 "k" 3 99
      { value := some 42, error := none, promise := none, date := some 0,
        subscribers := some [3], hydrated := false,
        cacheTime := some (JsNum.fin 0), evictionTimeout := none,
        invalid := false }
      (by decide) (by decide) (by decide)⟩

/-! ### Claim C7 (eviction-timer arm/disarm, I3/I4) -/

/-- C7: `subscribe(K, f)` cancels and removes any armed eviction timer on
`K`'s entry (given that the entry, if present, has its `subscribers`
property — true of every entry the public operations create).  Invoking the
returned unsubscribe when it empties the subscriber set clears any lingering
`error` and then, per the entry's retention window: deletes the entry
immediately for window `0`, arms the timer for a finite nonzero window, and
arms nothing for an unbounded window (the entry survives). -/
theorem c7_timer_arm_disarm :
    (∀ (t : Table) (K : String) (f now : Nat),
      (∀ it, get t K = some it → it.subscribers.isSome = true) →
      timeoutOf (subscribe t K f now).1 K = none) ∧
    (∀ (t : Table) (K : String) (f tid : Nat) (it : CacheItem),
      get t K = some it → it.subscribers = some [f] →
      errorOf (unsub t K f tid).1 K = none ∧
      (it.cacheTime = some (JsNum.fin 0) →
        get (unsub t K f tid).1 K = none) ∧
      (∀ m, it.cacheTime = some (JsNum.fin (m + 1)) →
        timeoutOf (unsub t K f tid).1 K = some tid ∧
        has (unsub t K f tid).1 K = true) ∧
      (it.cacheTime = some JsNum.inf →
        timeoutOf (unsub t K f tid).1 K = it.evictionTimeout ∧
        has (unsub t K f tid).1 K = true)) := by
  constructor
  · intro t K f now hWF
    unfold timeoutOf get subscribe
    cases htk : t K with
    | none => simp [htk, updT, setAdd]
    | some it =>
        have hs := hWF it htk
        cases hsub : it.subscribers with
        | none =>
            rw [hsub] at hs
            simp at hs
        | some subs =>
            cases hev : it.evictionTimeout <;>
              simp [htk, hsub, hev, updT, setAdd]
  · intro t K f tid it h hsubs
    have htk : t K = some it := h
    refine ⟨?_, ?_, ?_, ?_⟩
    · unfold errorOf get unsub
      cases hct : it.cacheTime with
      | none => simp [htk, hsubs, setDelete, hct, updT]
      | some c =>
          cases c with
          | fin m =>
              cases m with
              | zero => simp [htk, hsubs, setDelete, hct, eraseT]
              | succ m2 => simp [htk, hsubs, setDelete, hct, updT]
          | inf => simp [htk, hsubs, setDelete, hct, updT]
          | nan => simp [htk, hsubs, setDelete, hct, updT]
    · intro hct
      unfold get unsub
      simp [htk, hsubs, setDelete, hct, eraseT]
    · intro m hct
      constructor
      · unfold timeoutOf get unsub
        simp [htk, hsubs, setDelete, hct, updT]
      · unfold has unsub
        simp [htk, hsubs, setDelete, hct, updT]
    · intro hct
      constructor
      · unfold timeoutOf get unsub
        simp [htk, hsubs, setDelete, hct, updT]
      · unfold has unsub
        simp [htk, hsubs, setDelete, hct, updT]

/-- C7, witness: on the empty cache a subscribe leaves no timer; on an entry
for `"k"` with sole listener `3` and window `5 = 4 + 1`, the unsubscribe
clears the error, arms timer `99`, and keeps the entry. -/
theorem c7_timer_arm_disarm_witness :
    timeoutOf (subscribe emptyT "k" 3 0).1 "k" = none ∧
    errorOf (unsub (subscribe (set emptyT "k" (SetArg.val 1) (JsNum.fin 5)
      0).1 "k" 3 1).1 "k" 3 99).1 "k" = none ∧
    timeoutOf (unsub (subscribe (set emptyT "k" (SetArg.val 1) (JsNum.fin 5)
      0).1 "k" 3 1).1 "k" 3 99).1 "k" = some 99 ∧
    has (unsub (subscribe (set emptyT "k" (SetArg.val 1) (JsNum.fin 5)
      0).1 "k" 3 1).1 "k" 3 99).1 "k" = true :=
  ⟨c7_timer_arm_disarm.1 emptyT "k" 3 0 (fun _ h => Option.noConfusion h),
    (c7_timer_arm_disarm.2 (subscribe (set emptyT "k" (SetArg.val 1)
        (JsNum.fin 5) 0).1 "k" 3 1).1 "k" 3 99
      { value := some 1, error := none, promise := none, date := some 0,
        subscribers := some [3], hydrated := false,
        cacheTime := some (JsNum.fin 5), evictionTimeout := none,
        invalid := false }
      (by decide) (by decide)).1,
    ((c7_timer_arm_disarm.2 (subscribe (set emptyT "k" (SetArg.val 1)
        (JsNum.fin 5) 0).1 "k" 3 1).1 "k" 3 99
      { value := some 1, error := none, promise := none, date := some 0,
        subscribers := some [3], hydrated := false,
        cacheTime := some (JsNum.fin 5), evictionTimeout := none,
        invalid := false }
      (by decide) (by decide)).2.2.1 4 (by decide)).1,
    ((c7_timer_arm_disarm.2 (subscribe (set emptyT "k" (SetArg.val 1)
        (JsNum.fin 5) 0).1 "k" 3 1).1 "k" 3 99
      { value := some 1, error := none, promise := none, date := some 0,
        subscribers := some [3], hydrated := false,
        cacheTime := some (JsNum.fin 5), evictionTimeout := none,
        invalid := false }
      (by decide) (by decide)).2.2.1 4 (by decide)).2⟩

/-! ### Claim C8 (successful-resolution postcondition) -/

/-- C8, counterexample: future `1` is recorded for `"k"`, an
`invalidate("k")` happens while it is outstanding, and the future resolves —
the entry's `invalid` (stale) flag is still `true` after resolution: the
success callback never clears it (it is cleared at fetch start only). -/
theorem c8_counterexample :
    invalidOf (resolveCb (invalidate (set emptyT "k" (SetArg.prom 1)
      (JsNum.fin 5) 0).1 "k").1 "k" 42 3).1 "k" = true := by
  decide

/-- C8 amended: when a recorded future resolves, the entry afterwards holds
the resolution as its `value`, its `date` is the resolution time, and
`promise` is cleared — but the `invalid` (stale) flag is left exactly as it
was: an `invalidate(K)` between the `set` call and the resolution survives
the resolution (staleness is cleared at fetch start, not at resolution). -/
theorem c8_amended (t : Table) (K : String) (v now : Nat) :
    valueOf (resolveCb t K v now).1 K = some v ∧
    dateOf (resolveCb t K v now).1 K = some now ∧
    promiseOf (resolveCb t K v now).1 K = none ∧
    invalidOf (resolveCb t K v now).1 K = invalidOf t K := by
  refine ⟨?_, ?_, ?_, ?_⟩
  · unfold valueOf get
    rw [resolveCb_fst, updT_self, Option.some_bind]
    cases htk : t K <;> simp [resolveItem, htk]
  · unfold dateOf get
    rw [resolveCb_fst, updT_self, Option.some_bind]
    cases htk : t K <;> simp [resolveItem, htk]
  · unfold promiseOf get
    rw [resolveCb_fst, updT_self, Option.some_bind]
    cases htk : t K <;> simp [resolveItem, htk]
  · unfold invalidOf get
    rw [resolveCb_fst, updT_self]
    cases htk : t K <;> simp [resolveItem, htk]

/-! ### Claim C9 (eviction / late-resolution race) -/

/-- C9: the code evaluated at the failing input.  Future `1` is recorded for
`"k"` with retention window `0`; listener `7` subscribes and unsubscribes,
which evicts the entry while the future is outstanding.  When the future
then resolves, the success callback spreads `undefined` into a new object —
an entry lacking the `subscribers` and `cacheTime` properties — and then
throws a `TypeError` on `queryCache[key]!.subscribers.forEach`; the
rejection callback at the same state throws a `TypeError` on
`delete queryCache[key]!.promise`.  The claim's promised behaviour
(a well-formed re-created entry, completion without raising) does not hold. -/
theorem c9_eviction_race :
    get (unsub (subscribe (set emptyT "k" (SetArg.prom 1) (JsNum.fin 0)
      0).1 "k" 7 1).1 "k" 7 99).1 "k" = none ∧
    (resolveCb (unsub (subscribe (set emptyT "k" (SetArg.prom 1)
      (JsNum.fin 0) 0).1 "k" 7 1).1 "k" 7 99).1 "k" 42 5).2.2 =
        JsOutcome.typeError ∧
    (get (resolveCb (unsub (subscribe (set emptyT "k" (SetArg.prom 1)
      (JsNum.fin 0) 0).1 "k" 7 1).1 "k" 7 99).1 "k" 42 5).1 "k").isSome =
        true ∧
    subscribersOf (resolveCb (unsub (subscribe (set emptyT "k"
      (SetArg.prom 1) (JsNum.fin 0) 0).1 "k" 7 1).1 "k" 7 99).1 "k" 42
        5).1 "k" = none ∧
    cacheTimeOf (resolveCb (unsub (subscribe (set emptyT "k"
      (SetArg.prom 1) (JsNum.fin 0) 0).1 "k" 7 1).1 "k" 7 99).1 "k" 42
        5).1 "k" = none ∧
    (rejectCb (unsub (subscribe (set emptyT "k" (SetArg.prom 1)
      (JsNum.fin 0) 0).1 "k" 7 1).1 "k" 7 99).1 "k" 9).2.2 =
        JsOutcome.typeError := by
  decide

/-! ### Claim C10 (unsubscribe after eviction is a safe no-op) -/

/-- C10: invoking the unsubscribe closure when no entry for `K` exists
returns without throwing and leaves the table completely unchanged — it
notifies nobody, re-creates no entry, and arms no timer (`if
(!queryCache[key]) return;`, use-query.tsx:448); since the state is
unchanged, any number of repeated invocations behaves identically. -/
theorem c10_unsub_noop (t : Table) (K : String) (f tid : Nat)
    (h : get t K = none) : unsub t K f tid = (t, [], JsOutcome.ok) := by
  have htk : t K = none := h
  simp [unsub, htk]

/-- C10, witness: unsubscribing listener `3` from the empty cache. -/
theorem c10_unsub_noop_witness :
    unsub emptyT "k" 3 7 = (emptyT, [], JsOutcome.ok) :=
  c10_unsub_noop emptyT "k" 3 7 rfl

end GoodBoy
